import Mathlib

/-!
Shallow embedding of the excerpted core of the boden UI framework:
the `Window` view class (`src/unnamed/part_000`, i.e. `Window.cpp`),
the `UiLength` unit system (`src/boden/include/common/bdn/UiLength.h`)
and the `HTTPResponse` record documented in
`src/docs/docs/reference/net/http_response.md`.
-/

namespace bdn

/-- The `UiLength::Unit` enumeration from `UiLength.h`: the three units
`sem`, `realPixel` and `pixel96`, in declaration order. -/
inductive UiLength.Unit
  | sem
  | realPixel
  | pixel96
deriving DecidableEq, Repr

/-- The `UiLength` class from `UiLength.h`: a value tagged with a unit.
The C++ `double value` field is modelled as a rational number where only its
arithmetic matters; the comparison operators, whose behaviour on doubles
hinges on NaN, are modelled separately on `UiLengthD` below. -/
structure UiLength where
  unit : UiLength.Unit
  value : ℚ
deriving DecidableEq, Repr

/-- The default constructor `UiLength()`: sets `unit = sem` and `value = 0`. -/
def UiLength.mkDefault : UiLength :=
  { unit := UiLength.Unit.sem, value := 0 }

/-- An IEEE-754 `double` for the purposes of equality comparison: a NaN
payload compares unequal to every value, itself included, while every other
double compares by numeric value (modelled as a rational). -/
inductive DoubleVal
  | finite (q : ℚ)
  | nan
deriving DecidableEq, Repr

/-- IEEE-754 `==` on doubles: false whenever either operand is NaN, numeric
equality otherwise. -/
def DoubleVal.eqOp : DoubleVal → DoubleVal → Bool
  | DoubleVal.finite a, DoubleVal.finite b => a == b
  | _, _ => false

/-- The `UiLength` class again, with the `double value` field modelled
NaN-faithfully; this is the model the comparison operators of `UiLength.h`
are transcribed over. -/
structure UiLengthD where
  unit : UiLength.Unit
  value : DoubleVal
deriving DecidableEq, Repr

/-- `UiLength::operator==`: true iff both the unit and the value compare
equal, the value with double (IEEE-754) equality. -/
def UiLengthD.eqOp (a b : UiLengthD) : Bool :=
  a.unit == b.unit && DoubleVal.eqOp a.value b.value

/-- `UiLength::operator!=`: the negation of `operator==`. -/
def UiLengthD.neqOp (a b : UiLengthD) : Bool :=
  !(UiLengthD.eqOp a b)

namespace ui

namespace Window

/-- Modelled from the spec: the `Window::Orientation` bitmask enumeration is
declared in `bdn/ui/Window.h`, which is not part of the excerpt; only its use
as a bitmask (`orientation & Orientation::Portrait`, ..., and the value
`Orientation::All`) appears in `Window.cpp`.  The four flags are distinct
single bits and `All` is the union of all four, as the spec's orientation
model (visibility, orientation, title, ... synchronized via bindings)
requires. -/
def Orientation : Type := Nat
deriving DecidableEq, Repr

def Orientation.Portrait : Nat := 1

def Orientation.LandscapeLeft : Nat := 2

def Orientation.LandscapeRight : Nat := 4

def Orientation.PortraitUpsideDown : Nat := 8

def Orientation.All : Nat :=
  Orientation.Portrait ||| Orientation.LandscapeLeft |||
    Orientation.LandscapeRight ||| Orientation.PortraitUpsideDown

end Window

/-- `Window::orientationToString` from `Window.cpp`: appends the name of each
set flag to a string stream in the fixed order Portrait, LandscapeLeft,
LandscapeRight, PortraitUpsideDown, writing `" | "` before a name whenever the
stream is non-empty (`str.tellp() != 0`).  A C++ bitmask test
`orientation & flag` is true iff the conjunction is non-zero. -/
def Window.orientationToString (orientation : Nat) : String :=
  let str : String := ""
  let str :=
    if orientation &&& Window.Orientation.Portrait ≠ 0 then
      str ++ "Portrait"
    else str
  let str :=
    if orientation &&& Window.Orientation.LandscapeLeft ≠ 0 then
      (if str.length ≠ 0 then str ++ " | " else str) ++ "LandscapeLeft"
    else str
  let str :=
    if orientation &&& Window.Orientation.LandscapeRight ≠ 0 then
      (if str.length ≠ 0 then str ++ " | " else str) ++ "LandscapeRight"
    else str
  let str :=
    if orientation &&& Window.Orientation.PortraitUpsideDown ≠ 0 then
      (if str.length ≠ 0 then str ++ " | " else str) ++ "PortraitUpsideDown"
    else str
  str

/-- Specification-side description of `orientationToString`: the list of flag
names of exactly the flags set in the mask, in the fixed order Portrait,
LandscapeLeft, LandscapeRight, PortraitUpsideDown. -/
def Window.orientationFlagNames (orientation : Nat) : List String :=
  (if orientation &&& Window.Orientation.Portrait ≠ 0 then ["Portrait"] else []) ++
  (if orientation &&& Window.Orientation.LandscapeLeft ≠ 0 then ["LandscapeLeft"] else []) ++
  (if orientation &&& Window.Orientation.LandscapeRight ≠ 0 then ["LandscapeRight"] else []) ++
  (if orientation &&& Window.Orientation.PortraitUpsideDown ≠ 0 then ["PortraitUpsideDown"] else [])

/-- The mutable state of a `Window` that the excerpted member functions touch.
Views held through `std::shared_ptr<View>` are modelled by their identity
(a natural number); a null pointer is `Option.none`. -/
structure WindowState where
  visible : Bool
  allowedOrientations : Nat
  contentView : Option Nat
  title : String
deriving DecidableEq, Repr

/-- The `Window` constructor from `Window.cpp`: sets `visible = false` and
`allowedOrientations = Orientation::All`.  The `contentView` property starts
as a null pointer and `title` as the empty string. -/
def Window.init : WindowState :=
  { visible := false
    allowedOrientations := Window.Orientation.All
    contentView := none
    title := "" }

/-- `Window::childViews` (body, after the main-thread assertion): the
one-element list holding the content view when it is non-null, the empty list
otherwise. -/
def Window.childViews (s : WindowState) : List Nat :=
  match s.contentView with
  | some v => [v]
  | none => []

/-- `Window::removeAllChildViews`: sets `contentView` to null. -/
def Window.removeAllChildViews (s : WindowState) : WindowState :=
  { s with contentView := none }

/-- `Window::childViewStolen` (body, after the main-thread assertion): if the
stolen child is the current content view, set `contentView` to null. -/
def Window.childViewStolen (s : WindowState) (childView : Option Nat) : WindowState :=
  if childView = s.contentView then { s with contentView := none } else s

/-- Setting the `contentView` property (the only other operation of the
excerpt that changes the child-view structure). -/
def Window.setContentView (s : WindowState) (v : Option Nat) : WindowState :=
  { s with contentView := v }

/-- `Window::childViews` as actually executed, `assert(Application::isMainThread())`
included: `none` models an assertion failure, `some` the normal return. -/
def Window.childViewsRun (isMainThread : Bool) (s : WindowState) :
    Option (List Nat) :=
  if isMainThread then some (Window.childViews s) else none

/-- `Window::childViewStolen` as actually executed,
`assert(Application::isMainThread())` included: `none` models an assertion
failure, `some` the resulting state. -/
def Window.childViewStolenRun (isMainThread : Bool) (s : WindowState)
    (childView : Option Nat) : Option WindowState :=
  if isMainThread then some (Window.childViewStolen s childView) else none

/-- The user-facing `Window` properties that appear in `Window.cpp`. -/
inductive Window.Prop
  | visible
  | title
  | contentView
  | geometry
  | contentGeometry
  | allowedOrientations
  | currentOrientation
  | internalContentGeometry
deriving DecidableEq, Repr

/-- The properties of the platform core (`Window::Core`) that `bindViewCore`
binds. -/
inductive Window.CoreProp
  | contentView
  | title
  | allowedOrientations
  | currentOrientation
  | contentGeometry
deriving DecidableEq, Repr

/-- The property bindings established by `Window::bindViewCore`, in source
order: each pair is (core property, window property) of one `bind` call. -/
def Window.bindViewCoreBindings : List (Window.CoreProp × Window.Prop) :=
  [(Window.CoreProp.contentView, Window.Prop.contentView),
   (Window.CoreProp.title, Window.Prop.title),
   (Window.CoreProp.allowedOrientations, Window.Prop.allowedOrientations),
   (Window.CoreProp.currentOrientation, Window.Prop.currentOrientation),
   (Window.CoreProp.contentGeometry, Window.Prop.internalContentGeometry)]

/-- The properties passed to `registerCoreCreatingProperties` in the `Window`
constructor, in source order. -/
def Window.coreCreatingProperties : List Window.Prop :=
  [Window.Prop.visible, Window.Prop.contentView,
   Window.Prop.geometry, Window.Prop.contentGeometry]

end ui

/-- Modelled from the spec: per-screen quantities the spec's unit definitions
refer to.  The conversion operations of the `UiLength` unit-conversion model
are not in the excerpt (`UiLength.h` only declares the units, constructors and
comparisons); the spec defines 1 sem as the height of the screen's default UI
font, `realPixel` as an actual screen pixel, and `pixel96` as having a
constant conversion factor to sem on a given screen.  Both screen-dependent
sizes are expressed in real pixels. -/
structure ScreenEnv where
  semSizeInRealPixels : ℚ
  pixel96SizeInRealPixels : ℚ

/-- Modelled from the spec: the size of one unit in real pixels on a given
screen. -/
def UiLength.Unit.sizeInRealPixels (env : ScreenEnv) : UiLength.Unit → ℚ
  | UiLength.Unit.sem => env.semSizeInRealPixels
  | UiLength.Unit.realPixel => 1
  | UiLength.Unit.pixel96 => env.pixel96SizeInRealPixels

/-- Modelled from the spec: convert a `UiLength` to a target unit on a given
screen, going through real pixels. -/
def UiLength.convertTo (env : ScreenEnv) (l : UiLength) (target : UiLength.Unit) :
    UiLength :=
  { unit := target
    value := l.value * l.unit.sizeInRealPixels env / target.sizeInRealPixels env }

/-- Modelled from the spec: `HTTPRequest` is an external collaborator of
`HTTPResponse` (its header is not in the excerpt); only the request's
identity matters for the record claims, so it is kept abstract as a wrapped
string. -/
structure HTTPRequest where
  url : String
deriving DecidableEq, Repr

/-- The `HTTPResponse` record, with exactly the five public fields listed in
`src/docs/docs/reference/net/http_response.md`: `originalRequest`,
`responseCode`, `url`, `header` and `data`. -/
structure HTTPResponse where
  originalRequest : HTTPRequest
  responseCode : Int
  url : String
  header : String
  data : String
deriving DecidableEq, Repr

end bdn

open bdn bdn.ui

/-- C1: `Window::bindViewCore` establishes exactly the five property bindings
core.contentView ↔ contentView, core.title ↔ title,
core.allowedOrientations ↔ allowedOrientations,
core.currentOrientation ↔ currentOrientation and
core.contentGeometry ↔ internalContentGeometry, while the constructor
registers `visible` and `geometry` (among others) as core-creating
properties. -/
theorem C1_bindViewCore_bindings :
    (Window.CoreProp.contentView, Window.Prop.contentView) ∈
      Window.bindViewCoreBindings ∧
    (Window.CoreProp.title, Window.Prop.title) ∈ Window.bindViewCoreBindings ∧
    (Window.CoreProp.allowedOrientations, Window.Prop.allowedOrientations) ∈
      Window.bindViewCoreBindings ∧
    (Window.CoreProp.currentOrientation, Window.Prop.currentOrientation) ∈
      Window.bindViewCoreBindings ∧
    (Window.CoreProp.contentGeometry, Window.Prop.internalContentGeometry) ∈
      Window.bindViewCoreBindings ∧
    Window.bindViewCoreBindings.length = 5 ∧
    Window.Prop.visible ∈ Window.coreCreatingProperties ∧
    Window.Prop.geometry ∈ Window.coreCreatingProperties := by
  decide

/-- C2: `childViews` returns the one-element list holding the content view
when it is non-null and the empty list otherwise, so every window state has
at most one child view, and this is preserved by `removeAllChildViews`
(which nulls `contentView`), `childViewStolen` and setting the content
view. -/
theorem C2_single_child_invariant (s : WindowState) (c v : Option Nat) :
    (∀ w, s.contentView = some w → Window.childViews s = [w]) ∧
    (s.contentView = none → Window.childViews s = []) ∧
    (Window.childViews s).length ≤ 1 ∧
    (Window.removeAllChildViews s).contentView = none ∧
    Window.childViews (Window.removeAllChildViews s) = [] ∧
    (Window.childViews (Window.childViewStolen s c)).length ≤ 1 ∧
    (Window.childViews (Window.setContentView s v)).length ≤ 1 := by
  refine ⟨?_, ?_, ?_, rfl, rfl, ?_, ?_⟩
  · intro w hw
    simp [Window.childViews, hw]
  · intro hw
    simp [Window.childViews, hw]
  · cases h : s.contentView <;> simp [Window.childViews, h]
  · cases h : (Window.childViewStolen s c).contentView <;>
      simp [Window.childViews, h]
  · cases h : (Window.setContentView s v).contentView <;>
      simp [Window.childViews, h]

/-- C3: under the precondition that the caller runs on the main thread, the
`assert(Application::isMainThread())` checks in `childViews` and
`childViewStolen` pass and both functions reach their normal return: no
assertion-failure branch is taken. -/
theorem C3_main_thread_assertions (isMainThread : Bool) (s : WindowState)
    (c : Option Nat) (h : isMainThread = true) :
    Window.childViewsRun isMainThread s = some (Window.childViews s) ∧
    Window.childViewStolenRun isMainThread s c =
      some (Window.childViewStolen s c) := by
  subst h
  exact ⟨rfl, rfl⟩

/-- Witness for C3 at a concrete window state. -/
theorem C3_main_thread_assertions_witness :
    Window.childViewsRun true ⟨false, 15, some 7, "w"⟩ = some [7] ∧
    Window.childViewStolenRun true ⟨false, 15, some 7, "w"⟩ (some 7) =
      some ⟨false, 15, none, "w"⟩ :=
  C3_main_thread_assertions true ⟨false, 15, some 7, "w"⟩ (some 7) rfl

/-- C4: `orientationToString` returns the names of exactly the flags set in
the mask, in the fixed order Portrait, LandscapeLeft, LandscapeRight,
PortraitUpsideDown, joined by the separator " | " (hence the empty string
when no flag is set). -/
theorem C4_orientationToString_names (o : Nat) :
    Window.orientationToString o =
      String.intercalate " | " (Window.orientationFlagNames o) := by
  unfold Window.orientationToString Window.orientationFlagNames
  by_cases h1 : o &&& Window.Orientation.Portrait ≠ 0 <;>
    by_cases h2 : o &&& Window.Orientation.LandscapeLeft ≠ 0 <;>
      by_cases h3 : o &&& Window.Orientation.LandscapeRight ≠ 0 <;>
        by_cases h4 : o &&& Window.Orientation.PortraitUpsideDown ≠ 0 <;>
          (try simp [h1, h2, h3, h4, String.intercalate]) <;> decide

/-- C5: the unit-conversion model converts a `UiLength` between any of the
units sem, realPixel and pixel96: the result carries the requested unit,
converting to the value's own unit is the identity, and (for non-degenerate
screens) converting back to the original unit restores the original
length. -/
theorem C5_unit_conversion (env : ScreenEnv) (l : UiLength)
    (t : UiLength.Unit) (hsem : env.semSizeInRealPixels ≠ 0)
    (hp96 : env.pixel96SizeInRealPixels ≠ 0) :
    (UiLength.convertTo env l t).unit = t ∧
    UiLength.convertTo env l l.unit = l ∧
    UiLength.convertTo env (UiLength.convertTo env l t) l.unit = l := by
  have hsize : ∀ u : UiLength.Unit, u.sizeInRealPixels env ≠ 0 := by
    intro u
    cases u <;> simp [UiLength.Unit.sizeInRealPixels, hsem, hp96]
  refine ⟨rfl, ?_, ?_⟩
  · cases l with
    | mk u v =>
      have hu := hsize u
      simp only [UiLength.convertTo, UiLength.mk.injEq]
      refine ⟨trivial, ?_⟩
      field_simp
  · cases l with
    | mk u v =>
      have hu := hsize u
      have ht := hsize t
      simp only [UiLength.convertTo, UiLength.mk.injEq]
      refine ⟨trivial, ?_⟩
      field_simp

/-- Witness for C5 on a concrete screen and length. -/
theorem C5_unit_conversion_witness :
    (UiLength.convertTo ⟨2, 4⟩ ⟨UiLength.Unit.sem, 5⟩
        UiLength.Unit.pixel96).unit = UiLength.Unit.pixel96 ∧
    UiLength.convertTo ⟨2, 4⟩ ⟨UiLength.Unit.sem, 5⟩ UiLength.Unit.sem =
      ⟨UiLength.Unit.sem, 5⟩ ∧
    UiLength.convertTo ⟨2, 4⟩
        (UiLength.convertTo ⟨2, 4⟩ ⟨UiLength.Unit.sem, 5⟩
          UiLength.Unit.pixel96) UiLength.Unit.sem =
      ⟨UiLength.Unit.sem, 5⟩ :=
  C5_unit_conversion ⟨2, 4⟩ ⟨UiLength.Unit.sem, 5⟩ UiLength.Unit.pixel96
    (by norm_num) (by norm_num)

/-- Double equality is symmetric (in particular at NaN, where both sides are
false). -/
theorem DoubleVal.eqOp_comm (x y : DoubleVal) :
    DoubleVal.eqOp x y = DoubleVal.eqOp y x := by
  cases x <;> cases y <;> simp [DoubleVal.eqOp, eq_comm]

/-- C6: `UiLength::operator==` is true exactly when the units agree and the
values compare equal as doubles, `operator!=` is its exact negation, `==` is
symmetric, and it is reflexive exactly for those values whose `value` field
compares equal to itself as a double (so not at NaN). -/
theorem C6_equality_ops (a b : UiLengthD) :
    (UiLengthD.eqOp a b = true ↔
      a.unit = b.unit ∧ DoubleVal.eqOp a.value b.value = true) ∧
    UiLengthD.neqOp a b = !UiLengthD.eqOp a b ∧
    UiLengthD.eqOp a b = UiLengthD.eqOp b a ∧
    (UiLengthD.eqOp a a = true ↔ DoubleVal.eqOp a.value a.value = true) := by
  refine ⟨?_, rfl, ?_, ?_⟩
  · simp [UiLengthD.eqOp]
  · rw [Bool.eq_iff_iff]
    simp only [UiLengthD.eqOp, Bool.and_eq_true, beq_iff_eq]
    constructor <;>
      (rintro ⟨h1, h2⟩; rw [DoubleVal.eqOp_comm] at h2; exact ⟨h1.symm, h2⟩)
  · simp [UiLengthD.eqOp]

/-- C7: a freshly constructed `Window` starts hidden with all orientations
allowed, and a default-constructed `UiLength` has unit sem and value 0. -/
theorem C7_initial_state :
    Window.init.visible = false ∧
    Window.init.allowedOrientations = Window.Orientation.All ∧
    UiLength.mkDefault.unit = UiLength.Unit.sem ∧
    UiLength.mkDefault.value = 0 :=
  ⟨rfl, rfl, rfl, rfl⟩

/-- C8: `HTTPResponse` is a passive record of exactly the five fields
`originalRequest`, `responseCode`, `url`, `header` and `data`: constructing a
response and reading any field returns the stored value unchanged. -/
theorem C8_httpresponse_record (r : HTTPRequest) (c : Int)
    (u hd dt : String) :
    (HTTPResponse.mk r c u hd dt).originalRequest = r ∧
    (HTTPResponse.mk r c u hd dt).responseCode = c ∧
    (HTTPResponse.mk r c u hd dt).url = u ∧
    (HTTPResponse.mk r c u hd dt).header = hd ∧
    (HTTPResponse.mk r c u hd dt).data = dt :=
  ⟨rfl, rfl, rfl, rfl, rfl⟩
